import Mathlib

/-!
Verification development for the Zoom-to-Drive connector
(`src/template_zoom-drive-connector_github.js`).

The JavaScript source is shallowly embedded: pure string manipulation is
translated to executable Lean functions over `String`/`List Char`; the
external collaborators (HTTP fetches, Google Drive, the tracking
spreadsheet) are modelled by explicit oracles (functions supplying the
responses the collaborators would give) and by an explicit list of sheet
rows.  All definitions below are translated from the JavaScript source,
not from the specification text, except where a definition is explicitly
marked as following the spec's words for comparison purposes.
-/

namespace ZoomDrive

/-! ## Basic string utilities (JavaScript semantics)

These model the JavaScript string primitives used by the source:
`split` on a one-character separator, `includes`, `startsWith`,
`toLowerCase`, `trim`, `join`, and first-occurrence `replace`.
They are written by structural recursion on `List Char` so that the
kernel can evaluate them on concrete inputs. -/

/-- JavaScript whitespace class (the ASCII part of `\s` / `trim`):
space, tab, line feed, carriage return, vertical tab, form feed. -/
def jsWhitespaceChar (c : Char) : Bool :=
  c == ' ' || c == '\t' || c == '\n' || c == '\r' || c == '\x0b' || c == '\x0c'

/-- Auxiliary for `splitOnChar`: accumulates the current chunk (reversed). -/
def splitOnCharAux (sep : Char) : List Char → List Char → List (List Char)
  | [], acc => [acc.reverse]
  | c :: cs, acc =>
    if c == sep then acc.reverse :: splitOnCharAux sep cs []
    else splitOnCharAux sep cs (c :: acc)

/-- JavaScript `s.split(sep)` for a one-character separator `sep`
(every `split` in the source uses a one-character separator:
`"\n"`, `":"`, `"T"`, `"-"`). -/
def splitOnChar (sep : Char) (s : List Char) : List (List Char) :=
  splitOnCharAux sep s []

/-- JavaScript `array.join(sep)`. -/
def joinSep (sep : String) : List String → String
  | [] => ""
  | [x] => x
  | x :: xs => x ++ sep ++ joinSep sep xs

/-- Substring test on character lists (used for JavaScript `includes`). -/
def containsSub (pat : List Char) : List Char → Bool
  | [] => pat.isEmpty
  | c :: cs => pat.isPrefixOf (c :: cs) || containsSub pat cs

/-- JavaScript `s.includes(pat)`. -/
def strContains (s pat : String) : Bool :=
  containsSub pat.data s.data

/-- JavaScript `s.startsWith(pat)`. -/
def strStartsWith (s pat : String) : Bool :=
  pat.data.isPrefixOf s.data

/-- JavaScript `s.toLowerCase()` (ASCII case folding, as used on the
ASCII keywords and file extensions of the source). -/
def strLower (s : String) : String :=
  String.mk (s.data.map Char.toLower)

/-- JavaScript `s.trim()` on a character list. -/
def trimList (l : List Char) : List Char :=
  ((l.dropWhile jsWhitespaceChar).reverse.dropWhile jsWhitespaceChar).reverse

/-- JavaScript `s.trim()`. -/
def trimJS (s : String) : String :=
  String.mk (trimList s.data)

/-- Replace the first occurrence of `pat` in `s` by `rep`
(JavaScript `s.replace(pat, rep)` with a string pattern). -/
def replaceFirstList (s pat rep : List Char) : List Char :=
  match (List.range (s.length + 1)).find? (fun i => pat.isPrefixOf (s.drop i)) with
  | some i => s.take i ++ rep ++ s.drop (i + pat.length)
  | none => s

/-- JavaScript `s.replace(pat, rep)` (first occurrence only). -/
def replaceFirstStr (s pat rep : String) : String :=
  String.mk (replaceFirstList s.data pat.data rep.data)

/-- JavaScript `opt || dflt` for a possibly-absent string field:
`undefined` and the empty string are falsy and replaced by the default. -/
def jsOrString (o : Option String) (dflt : String) : String :=
  match o with
  | none => dflt
  | some s => if s == "" then dflt else s

/-- Two-digit zero padding, as produced by `Utilities.formatDate` for the
`MM`/`dd` fields. -/
def pad2 (n : Nat) : String :=
  if n < 10 then "0" ++ toString n else toString n

/-- `Utilities.formatDate(date, tz, "yyyy-MM-dd")` on a calendar date
with components `(y, m, d)` in the script time zone. -/
def formatYMD (y m d : Nat) : String :=
  toString y ++ "-" ++ pad2 m ++ "-" ++ pad2 d

/-! ## The tracking sheet (ledger) -/

/-- A value read from a spreadsheet cell by `getDataRange().getValues()`:
either a plain string or a structured date (a JavaScript `Date`), whose
calendar components in the script time zone are `(y, m, d)`. -/
inductive Cell where
  | str (s : String)
  | date (y m d : Nat)
deriving DecidableEq, Repr

/-- One data row of the tracking sheet (the header row of the sheet is
not part of this list; the lookups of the source skip it by starting
their scan at index 1).  Columns: Meeting Topic, Meeting Date,
Files Transferred, Location in Drive, Transfer Date, Host Email. -/
structure Row where
  topic : String
  date : Cell
  files : String
  location : String
  transferDate : String
  hostEmail : String
deriving DecidableEq, Repr

/-- JavaScript strict equality `cell === queriedString` between a cell
value and a string: a `Date` object is never `===` a string. -/
def cellRawEq (c : Cell) (q : String) : Bool :=
  match c with
  | .str s => s == q
  | .date _ _ _ => false

/-- `isRecordingProcessed(meetingTopic, meetingDate, sheet)`
(source lines 878-888): scans the data rows and returns true on the
first row whose topic and date cells are strictly equal (`===`) to the
queried topic and date strings.  No normalization of the stored date
cell is performed. -/
def isRecordingProcessed (meetingTopic meetingDate : String) (rows : List Row) : Bool :=
  match rows with
  | [] => false
  | r :: rest =>
    if r.topic == meetingTopic && cellRawEq r.date meetingDate then true
    else isRecordingProcessed meetingTopic meetingDate rest

/-- The stored meeting-date cell as `isSummaryProcessed` sees it after
its `instanceof Date` branch: a structured date is formatted as
`yyyy-MM-dd` (via `Utilities.formatDate`), a string is left as is. -/
def normDateCell : Cell → String
  | .date y m d => formatYMD y m d
  | .str s => s

/-- `isSummaryProcessed(meetingTopic, meetingDate, sheet)`
(source lines 890-912): scans the data rows; a structured date cell is
first formatted as `yyyy-MM-dd`; on a topic/date match the row counts
only when its Files Transferred cell equals `"AI Summary"`, otherwise
the scan continues. -/
def isSummaryProcessed (meetingTopic meetingDate : String) (rows : List Row) : Bool :=
  match rows with
  | [] => false
  | r :: rest =>
    if r.topic == meetingTopic && normDateCell r.date == meetingDate then
      if r.files == "AI Summary" then true
      else isSummaryProcessed meetingTopic meetingDate rest
    else isSummaryProcessed meetingTopic meetingDate rest

/-- Modelled from the spec's wording of claim C3 only, for comparison
with the source's `isRecordingProcessed`: a dedup lookup that
normalizes the stored meeting-date cell (structured date or string) to
its `yyyy-MM-dd` representation before comparing with the queried date. -/
def isRecordingProcessedSpecNormalized (meetingTopic meetingDate : String)
    (rows : List Row) : Bool :=
  match rows with
  | [] => false
  | r :: rest =>
    if r.topic == meetingTopic && normDateCell r.date == meetingDate then true
    else isRecordingProcessedSpecNormalized meetingTopic meetingDate rest

/-! ## TranscriptFormatter: `convertTranscriptToText` (source lines 590-647)

Only the text conversion is modelled; the creation of the resulting
Drive file is an external collaborator effect. -/

/-- Regex `^\d{2}:\d{2}:\d{2}` of the source: the line starts with a
`dd:dd:dd` timestamp. -/
def startsTimestamp : List Char → Bool
  | a :: b :: c :: d :: e :: f :: g :: h :: _ =>
    a.isDigit && b.isDigit && c == ':' && d.isDigit && e.isDigit && f == ':' &&
      g.isDigit && h.isDigit
  | _ => false

/-- The skip test of the conversion loop (source lines 601-605):
WebVTT header, timestamp line, bare sequence number, or empty line. -/
def isSkippableLine (l : List Char) : Bool :=
  ("WEBVTT".data.isPrefixOf l) || startsTimestamp l ||
    (!l.isEmpty && l.all Char.isDigit) || l.isEmpty

/-- The speaker side of a caption line: JavaScript
`let [speaker, ...text] = line.split(":")` followed by `speaker.trim()`. -/
def lineSpeaker (line : String) : String :=
  trimJS (String.mk ((splitOnChar ':' line.data).headD []))

/-- The statement side of a caption line: JavaScript `text.join(":")`
followed by `.trim()`, where `text` is every colon-separated part after
the first. -/
def lineStatement (line : String) : String :=
  trimJS (joinSep ":" (((splitOnChar ':' line.data).drop 1).map String.mk))

/-- Mutable state of the conversion loop: the current speaker (`null`
initially), the accumulated statements of the current speaker, and the
already flushed output entries. -/
structure VttState where
  currentSpeaker : Option String
  currentStatement : List String
  plainText : List String
deriving DecidableEq, Repr

/-- JavaScript truthiness of the `currentSpeaker` variable
(`null` and the empty string are falsy). -/
def speakerTruthy : Option String → Bool
  | none => false
  | some s => s != ""

/-- The flush of the accumulated statement (source lines 620-622 and
632-634): `if (currentSpeaker && currentStatement.length > 0)` push
`"speaker: joined statements"`. -/
def flushState (st : VttState) : List String :=
  if speakerTruthy st.currentSpeaker && !st.currentStatement.isEmpty then
    st.plainText ++ [st.currentSpeaker.getD "" ++ ": " ++ joinSep " " st.currentStatement]
  else st.plainText

/-- One iteration of the conversion loop of `convertTranscriptToText`
over a raw input line (source lines 597-629). -/
def vttStep (st : VttState) (rawLine : String) : VttState :=
  let line := trimJS rawLine
  if isSkippableLine line.data then st
  else if strContains line ":" then
    let speaker := lineSpeaker line
    let statement := lineStatement line
    if speaker != "" && statement != "" then
      if some speaker == st.currentSpeaker then
        { st with currentStatement := st.currentStatement ++ [statement] }
      else
        { currentSpeaker := some speaker
          currentStatement := [statement]
          plainText := flushState st }
    else st
  else st

/-- The text produced by `convertTranscriptToText` from the given input
lines: fold the loop over the lines, flush the last speaker, join the
entries with a blank line. -/
def convertCore (lines : List String) : String :=
  joinSep "\n\n" (flushState (lines.foldl vttStep ⟨none, [], []⟩))

/-- `convertTranscriptToText(vttContent, ...)` restricted to its output
text: split the content on newlines and run the conversion loop. -/
def convertTranscriptToText (vttContent : String) : String :=
  convertCore ((splitOnChar '\n' vttContent.data).map String.mk)

/-! ## Topic normalization (source lines 656-661 and 771-775)

`processRecording` and `processMeetingSummary` both remove a configured
topic marker with
`new RegExp(`^PREFIX(\s\|\s|\s)`)` applied by `String.replace` after a
`startsWith` guard.  The configured marker is plain text (it contains no
regex metacharacters), so the regex is modelled literally: after the
marker, either whitespace-pipe-whitespace or a single whitespace
character is consumed; otherwise nothing matches and the topic is
unchanged. -/

/-- Match of the regex group `(\s\|\s|\s)` at the start of `rest`
(the characters following the configured marker): returns the remainder
after the consumed separator, or `none` when the regex does not match. -/
def stripSeparator (rest : List Char) : Option (List Char) :=
  match rest with
  | [] => none
  | c1 :: tail1 =>
    if jsWhitespaceChar c1 then
      match tail1 with
      | c2 :: c3 :: tail =>
        if c2 == '|' && jsWhitespaceChar c3 then some tail else some tail1
      | _ => some tail1
    else none

/-- The topic-marker removal applied by `processRecording` and
`processMeetingSummary`: when `CONFIG.TOPIC_PREFIX_TO_REMOVE` is
non-empty (truthy) and the topic starts with it, replace the first
match of `^marker(\s\|\s|\s)` by the empty string. -/
def removeConfiguredTopicStart (marker topic : String) : String :=
  if marker == "" then topic
  else if strStartsWith topic marker then
    match stripSeparator (topic.data.drop marker.data.length) with
    | some tail => String.mk tail
    | none => topic
  else topic

/-! ## FolderRouter: `getDestinationFolderId` (source lines 945-957) -/

/-- The keyword scan of `getDestinationFolderId`: first configured
keyword that occurs (case-insensitively, via `includes` on the lowered
topic) wins. -/
def lookupFolder (topicLower : String) : List (String × String) → Option String
  | [] => none
  | (keyword, folderId) :: rest =>
    if strContains topicLower (strLower keyword) then some folderId
    else lookupFolder topicLower rest

/-- `getDestinationFolderId(meetingTopic)`: iterate the configured
`FOLDER_MAPPING` pairs in order; return the folder of the first keyword
contained in the lowered topic, else the configured default folder id. -/
def getDestinationFolderId (mapping : List (String × String)) (defaultId : String)
    (meetingTopic : String) : String :=
  match lookupFolder (strLower meetingTopic) mapping with
  | some folderId => folderId
  | none => defaultId

/-! ## `logTransferToSheet` (source lines 1038-1100)

Only the computation of the appended row is modelled; fetching the
folder name and writing the rich-text link are collaborator effects.
The folder created for an item is named `folderName`, so
`DriveApp.getFolderById(folderId).getName()` returns that name. -/

/-- The file-type summary extracted from the joined `filesTransferred`
string (source lines 1045-1063). -/
def fileTypesList (filesTransferred : String) : String :=
  let l1 := if strContains filesTransferred ".mp4" then ["Video"] else []
  let l2 := if strContains filesTransferred ".m4a" then l1 ++ ["Audio"] else l1
  let l3 :=
    if strContains filesTransferred "chat.txt" || strContains filesTransferred "Chat.txt"
    then l2 ++ ["Chat"] else l2
  let l4 := if strContains filesTransferred "transcript.txt" then l3 ++ ["Transcript"] else l3
  let l5 := if strContains filesTransferred "AI Summary" then l4 ++ ["AI Summary"] else l4
  joinSep ", " l5

/-- Model of JavaScript `parseInt`/`Number` on the canonical all-digit
date components produced by ISO `yyyy-MM-dd` dates (non-numeric
components yield `none`, standing for an invalid `Date`). -/
def parseDigits (l : List Char) : Option Nat :=
  if !l.isEmpty && l.all Char.isDigit then
    some (l.foldl (fun a c => a * 10 + (c.toNat - 48)) 0)
  else none

/-- The meeting-date reformatting of `logTransferToSheet` (source lines
1066-1078): a non-empty date other than `"Unknown Date"` that splits on
`"-"` into three numeric parts is rebuilt through `new Date(y, m-1, d)`
and `Utilities.formatDate(..., "MM-dd-yyyy")`; in every other case
(including an invalid `Date`, whose formatting throws and is caught)
the date string is left unchanged.  The `Date` round trip is modelled
on in-range calendar components, which is what ISO `start_time` dates
provide. -/
def formatMeetingDate (meetingDate : String) : String :=
  if meetingDate == "" || meetingDate == "Unknown Date" then meetingDate
  else
    let parts := splitOnChar '-' meetingDate.data
    if parts.length == 3 then
      match parseDigits (parts.getD 0 []), parseDigits (parts.getD 1 []),
          parseDigits (parts.getD 2 []) with
      | some y, some m, some d => pad2 m ++ "-" ++ pad2 d ++ "-" ++ toString y
      | _, _, _ => meetingDate
    else meetingDate

/-- The row appended to the tracking sheet by `logTransferToSheet`
(columns A-F, source lines 1081-1092); the `transferDate` argument is
the `new Date()` timestamp rendered opaquely as a string. -/
def logTransferRow (meetingTopic meetingDate filesTransferred folderName
    transferDate hostEmail : String) : Row :=
  { topic := meetingTopic
    date := Cell.str (formatMeetingDate meetingDate)
    files := fileTypesList filesTransferred
    location := folderName
    transferDate := transferDate
    hostEmail := hostEmail }

/-! ## Data model of the API items -/

/-- One entry of `recording_files` as used by `processRecording`:
`file_type`, `file_extension` and `download_url` may be absent. -/
structure RecFile where
  file_type : Option String
  file_extension : Option String
  download_url : Option String
deriving DecidableEq, Repr

/-- One meeting returned by the recording list endpoint, restricted to
the fields the source reads: `uuid`, `topic`, `start_time`,
`host_email`, `recording_files` (an absent `recording_files` field
behaves like the empty list in the guarded loop of the source). -/
structure Recording where
  uuid : String
  topic : Option String
  start_time : Option String
  host_email : Option String
  recording_files : List RecFile
deriving DecidableEq, Repr

/-- One item returned by the meeting summaries list endpoint, restricted
to the fields `processMeetingSummary` reads. -/
structure SummaryItem where
  meeting_uuid : String
  meeting_topic : Option String
  summary_created_time : Option String
  meeting_host_email : Option String
deriving DecidableEq, Repr

/-! ## The relevant CONFIG fields -/

/-- The configuration fields consumed by the processing pipeline.
`FOLDER_MAPPING` keeps the configured (insertion) order of the
JavaScript object keys. -/
structure Config where
  DAYS_TO_FETCH : Nat
  DELETE_AFTER_TRANSFER : Bool
  FOLDER_MAPPING : List (String × String)
  DEFAULT_FOLDER_ID : String
  TOPIC_PREFIX_TO_REMOVE : String

/-! ## WindowedFetcher: date chunking (source lines 281-336 and 341-399)

Dates are modelled as integer day numbers; `setDate(getDate() - k)`
subtracts `k` days on the JavaScript timeline and
`Utilities.formatDate(..., "GMT", ...)` renders the calendar day, so
the window arithmetic is integer arithmetic on day numbers. -/

/-- The date windows requested by `getZoomRecordingsForUser`
(and identically by `getZoomSummariesForUser`): `Math.ceil(days/30)`
chunks walking backward from `today`, each 30 days long, the start
clamped to `fromDate = today - days`.  Each pair is
`(chunkStartDate, chunkEndDate)`. -/
def getRecordingChunks (daysToFetch : Nat) (today : Int) : List (Int × Int) :=
  let fromDate := today - (daysToFetch : Int)
  let numChunks := (daysToFetch + 29) / 30
  (List.range numChunks).map (fun (i : Nat) =>
    let chunkEnd := today - 30 * (i : Int)
    let chunkStart := chunkEnd - 30
    (if chunkStart < fromDate then fromDate else chunkStart, chunkEnd))

/-! ## WindowedFetcher: pagination (source lines 446-500 and 505-556)

The HTTP collaborator is an oracle giving the response to each request.
For the recording list the requests of one window are numbered by page
number; for the summary list by request count (the opaque
`next_page_token` chain).  `netFail` is a thrown request failure
(`UrlFetchApp.fetch` throws even with `muteHttpExceptions` on transport
errors); `httpErr` is a non-200 response.  The `fuel` argument bounds
the number of loop iterations; every theorem below supplies enough fuel
for the responses it fixes, so the cut-off is never reached there. -/

/-- Response of the recording list endpoint to one page request. -/
inductive RecPage where
  | ok (meetings : List Recording) (pageCount : Nat)
  | httpErr
  | netFail
deriving Repr

/-- The page loop of `fetchRecordingsForDateRange` (source lines
457-499).  There is no try/catch in this function: a thrown request
failure propagates to the caller (`Except.error`).  A non-200 response
ends the loop, returning what was collected.  On a 200 response each
meeting's `host_email` is defaulted to the collaborator-provided
`userEmail` (`getUserEmailById`), and the loop continues while
`page_count > page`. -/
def fetchRecLoop (userEmail : String) (pages : Nat → RecPage) :
    Nat → Nat → List Recording → Except Unit (List Recording)
  | 0, _, acc => Except.ok acc
  | fuel + 1, page, acc =>
    match pages page with
    | .netFail => Except.error ()
    | .httpErr => Except.ok acc
    | .ok meetings pageCount =>
      let enriched := meetings.map (fun m =>
        { m with host_email := some (jsOrString m.host_email userEmail) })
      if page < pageCount then fetchRecLoop userEmail pages fuel (page + 1) (acc ++ enriched)
      else Except.ok (acc ++ enriched)

/-- The chunk loop inside the `try` of `getZoomRecordingsForUser`
(source lines 300-330): windows are fetched in order and concatenated;
a thrown failure aborts the whole loop. -/
def recChunksGo (userEmail : String) (oracle : Nat → Nat → RecPage) (fuel : Nat) :
    List Nat → List Recording → Except Unit (List Recording)
  | [], acc => Except.ok acc
  | c :: cs, acc =>
    match fetchRecLoop userEmail (oracle c) fuel 1 [] with
    | .error e => Except.error e
    | .ok xs => recChunksGo userEmail oracle fuel cs (acc ++ xs)

/-- `getZoomRecordingsForUser(accessToken, userId)` (source lines
281-336): run the chunk loop over `ceil(days/30)` windows; the
enclosing catch turns any thrown failure into the empty list,
discarding every already-collected item.  The oracle is indexed by
chunk number and page number. -/
def getZoomRecordingsForUser (fuel daysToFetch : Nat) (userId userEmail : String)
    (oracle : Nat → Nat → RecPage) : List Recording :=
  let numChunks := (daysToFetch + 29) / 30
  match recChunksGo userEmail oracle fuel (List.range numChunks) [] with
  | .ok items => items
  | .error _ => []

/-- Response of the meeting summaries list endpoint to one request of a
window; `hasNext` is the truthiness of `next_page_token` in the
response. -/
inductive SumPage where
  | ok (summaries : List SummaryItem) (hasNext : Bool)
  | httpErr
  | netFail
deriving Repr

/-- The page loop of `fetchSummariesForDateRange` (source lines
516-555).  The loop body is wrapped in try/catch: a thrown request
failure and a non-200 response both end the loop, returning what was
collected; on a 200 response the loop continues while the response
carries a truthy `next_page_token`. -/
def fetchSumLoop (pages : Nat → SumPage) :
    Nat → Nat → List SummaryItem → List SummaryItem
  | 0, _, acc => acc
  | fuel + 1, i, acc =>
    match pages i with
    | .netFail => acc
    | .httpErr => acc
    | .ok summaries hasNext =>
      if hasNext then fetchSumLoop pages fuel (i + 1) (acc ++ summaries)
      else acc ++ summaries

/-- The chunk loop of `getZoomSummariesForUser` (source lines 360-390):
windows are fetched in order and concatenated; the fetch never throws. -/
def sumChunksGo (oracle : Nat → Nat → SumPage) (fuel : Nat) :
    List Nat → List SummaryItem → List SummaryItem
  | [], acc => acc
  | c :: cs, acc => sumChunksGo oracle fuel cs (acc ++ fetchSumLoop (oracle c) fuel 0 [])

/-- `getZoomSummariesForUser(accessToken, userId)` (source lines
341-399): run the chunk loop over `ceil(days/30)` windows.  The
`userId` argument is received but never used in any request of
`fetchSummariesForDateRange` (the summary list endpoint is
account-global); the oracle is indexed by chunk number and request
number. -/
def getZoomSummariesForUser (fuel daysToFetch : Nat) (userId : String)
    (oracle : Nat → Nat → SumPage) : List SummaryItem :=
  let numChunks := (daysToFetch + 29) / 30
  sumChunksGo oracle fuel (List.range numChunks) []

/-- The summary phase of `runZoomToDriveConnector` (source lines
90-99): for each enumerated member in order, fetch that member's
summaries and hand each returned item to `processMeetingSummary`; the
resulting sequence of presented items is the concatenation of the
per-member fetch results. -/
def summariesPhase (users : List String) (fuel daysToFetch : Nat)
    (oracle : Nat → Nat → SumPage) : List SummaryItem :=
  (users.map (fun u => getZoomSummariesForUser fuel daysToFetch u oracle)).flatten

/-! ## TransferOrchestrator: `processRecording` (source lines 652-761)

The Drive and download collaborators are an oracle: `folderId` is the
result of `createDriveFolder` (`Except.error` models its throw on a
missing/invalid parent, caught by the item-level catch), and
`fileOutcome i` is the outcome of downloading and storing the `i`-th
entry of `recording_files` — `some driveFileId` when the Drive file was
created, `none` when the download returned non-200 or threw (the
per-file try/catch logs and continues). -/

structure RecEffects where
  folderId : Except Unit String
  fileOutcome : Nat → Option String

/-- Outcome of `processRecording` on one item: whether the dedup check
skipped it, the `filesTransferred` entries (one per Drive file
created), whether the Zoom deletion call was invoked, the row appended
to the tracking sheet (if any), and whether the item-level catch fired. -/
structure ProcessResult where
  skipped : Bool
  filesTransferred : List String
  deleteInvoked : Bool
  logged : Option Row
  errored : Bool
deriving DecidableEq, Repr

/-- The body of the per-file loop of `processRecording` (source lines
683-734): lowercase the type and extension, skip JSON timeline files,
derive the file name, and - when a download URL is present - record the
transferred-file entry `"name (driveFileId)"` on success.  A `.vtt`
file is converted and stored under the `.txt`-renamed name. -/
def processOneFile (outcome : Option String) (meetingDate meetingTopic : String)
    (file : RecFile) : Option String :=
  let fileType := file.file_type.map strLower
  let fileExtension := file.file_extension.map strLower
  if fileExtension == some "json" then none
  else
    let fileName :=
      if fileExtension == some "mp4" then
        meetingDate ++ "_" ++ meetingTopic ++ "_video." ++ fileExtension.getD "undefined"
      else if fileExtension == some "m4a" then
        meetingDate ++ "_" ++ meetingTopic ++ "_audio." ++ fileExtension.getD "undefined"
      else if fileType == some "transcript" then
        meetingDate ++ "_" ++ meetingTopic ++ "_transcript." ++ fileExtension.getD "undefined"
      else
        meetingDate ++ "_" ++ meetingTopic ++ "_" ++ fileType.getD "undefined" ++ "." ++
          fileExtension.getD "undefined"
    match file.download_url with
    | none => none
    | some url =>
      if url == "" then none
      else if fileExtension == some "vtt" || fileExtension == some "VTT" then
        outcome.map (fun driveId =>
          replaceFirstStr (replaceFirstStr fileName ".vtt" ".txt") ".VTT" ".txt" ++
            " (" ++ driveId ++ ")")
      else
        outcome.map (fun driveId => fileName ++ " (" ++ driveId ++ ")")

/-- The per-file loop over `recording_files`, consuming one oracle
outcome per entry. -/
def processFilesGo (fileOutcome : Nat → Option String)
    (meetingDate meetingTopic : String) : List RecFile → Nat → List String
  | [], _ => []
  | f :: rest, i =>
    match processOneFile (fileOutcome i) meetingDate meetingTopic f with
    | some entry => entry :: processFilesGo fileOutcome meetingDate meetingTopic rest (i + 1)
    | none => processFilesGo fileOutcome meetingDate meetingTopic rest (i + 1)

/-- `processRecording(recording, accessToken, trackingSheet)` (source
lines 652-761): normalize the topic, derive the meeting date from
`start_time`, skip when `isRecordingProcessed` finds the (topic, date)
pair, otherwise create the per-meeting folder (an exception there is
caught by the item-level catch: nothing transferred, nothing logged),
transfer the files, invoke the Zoom deletion only when
`DELETE_AFTER_TRANSFER` is set and at least one file was transferred,
and append the tracking row via `logTransferToSheet`. -/
def processRecording (cfg : Config) (eff : RecEffects) (recording : Recording)
    (sheet : List Row) (now : String) : ProcessResult :=
  let meetingTopic :=
    removeConfiguredTopicStart cfg.TOPIC_PREFIX_TO_REMOVE
      (jsOrString recording.topic "Unnamed Meeting")
  let meetingDate :=
    match recording.start_time with
    | none => "Unknown Date"
    | some st => if st == "" then "Unknown Date" else String.mk ((splitOnChar 'T' st.data).headD [])
  let hostEmail := jsOrString recording.host_email "Unknown Host"
  if isRecordingProcessed meetingTopic meetingDate sheet then
    { skipped := true, filesTransferred := [], deleteInvoked := false
      logged := none, errored := false }
  else
    let folderName := meetingDate ++ "_" ++ meetingTopic
    let _destinationFolderId :=
      getDestinationFolderId cfg.FOLDER_MAPPING cfg.DEFAULT_FOLDER_ID meetingTopic
    match eff.folderId with
    | .error _ =>
      { skipped := false, filesTransferred := [], deleteInvoked := false
        logged := none, errored := true }
    | .ok _folderId =>
      let filesTransferred :=
        processFilesGo eff.fileOutcome meetingDate meetingTopic recording.recording_files 0
      { skipped := false
        filesTransferred := filesTransferred
        deleteInvoked := cfg.DELETE_AFTER_TRANSFER && !filesTransferred.isEmpty
        logged := some (logTransferRow meetingTopic meetingDate
          (joinSep ", " filesTransferred) folderName now hostEmail)
        errored := false }

/-! ## Concrete fixtures used by the closed theorems below -/

/-- A configuration with delete-after-transfer enabled, no folder
mapping, and no topic marker configured. -/
def exConfig : Config :=
  { DAYS_TO_FETCH := 2, DELETE_AFTER_TRANSFER := true, FOLDER_MAPPING := []
    DEFAULT_FOLDER_ID := "F0", TOPIC_PREFIX_TO_REMOVE := "" }

/-- A recording item with one MP4 file. -/
def exRecording : Recording :=
  { uuid := "uuid-1", topic := some "Team Sync", start_time := some "2025-10-05T10:00:00Z"
    host_email := some "host@example.com"
    recording_files :=
      [{ file_type := some "MP4", file_extension := some "mp4"
         download_url := some "https://zoom.example/dl" }] }

/-- Collaborator effects where folder creation and every file transfer
succeed. -/
def exEffects : RecEffects :=
  { folderId := Except.ok "folder-1", fileOutcome := fun _ => some "drive-1" }

/-- Collaborator effects where folder creation succeeds but every file
download fails (per-file catch: the file is skipped). -/
def exEffectsFail : RecEffects :=
  { folderId := Except.ok "folder-1", fileOutcome := fun _ => none }

/-- The tracking row that a first run of `processRecording` on
`exRecording` appends (its date cell holds the `MM-dd-yyyy`
reformatting of the meeting date). -/
def exLoggedRow : Row :=
  ⟨"Team Sync", Cell.str "10-05-2025", "Video", "2025-10-05_Team Sync", "now",
    "host@example.com"⟩

/-! ## Sanity checks of the embedding on concrete inputs -/

example : strContains "abc.mp4 (id)" ".mp4" = true := by decide

example : replaceFirstStr "2025_t_transcript.vtt" ".vtt" ".txt" = "2025_t_transcript.txt" := by
  decide

example : formatYMD 2025 10 5 = "2025-10-05" := by decide

example : removeConfiguredTopicStart "Org" "Org | Weekly" = "Weekly" := by decide
example : removeConfiguredTopicStart "Org" "Org Weekly" = "Weekly" := by decide
example : removeConfiguredTopicStart "Org" "Org: Weekly" = "Org: Weekly" := by decide

example : formatMeetingDate "2025-10-05" = "10-05-2025" := by decide
example : formatMeetingDate "Unknown Date" = "Unknown Date" := by decide

example : fileTypesList "" = "" := by decide
example : fileTypesList "2025-10-05_T_video.mp4 (id1)" = "Video" := by decide

example :
    (processRecording exConfig exEffects exRecording [] "now").filesTransferred =
      ["2025-10-05_Team Sync_video.mp4 (drive-1)"] := by decide

example :
    (processRecording exConfig exEffects exRecording [] "now").deleteInvoked = true := by decide

/-! ## Shared helper lemmas -/

/-- The recording-kind scan is an `any` over the data rows with strict
(`===`) topic and date comparison. -/
theorem isRecordingProcessed_eq_any (t q : String) (rows : List Row) :
    isRecordingProcessed t q rows =
      rows.any (fun r => r.topic == t && cellRawEq r.date q) := by
  induction rows with
  | nil => rfl
  | cons r rest ih =>
    cases hc : (r.topic == t && cellRawEq r.date q) with
    | true => simp [isRecordingProcessed, hc]
    | false => simp [isRecordingProcessed, hc, ih]

/-- The summary-kind scan is an `any` over the data rows with the
stored date cell normalized and the `"AI Summary"` marker required. -/
theorem isSummaryProcessed_eq_any (t q : String) (rows : List Row) :
    isSummaryProcessed t q rows =
      rows.any (fun r =>
        r.topic == t && normDateCell r.date == q && r.files == "AI Summary") := by
  induction rows with
  | nil => rfl
  | cons r rest ih =>
    cases hm : (r.topic == t && normDateCell r.date == q) with
    | true =>
      cases hf : (r.files == "AI Summary") with
      | true => simp_all [isSummaryProcessed]
      | false => simp_all [isSummaryProcessed]
    | false =>
      rcases Bool.and_eq_false_iff.mp hm with h | h <;>
        simp_all [isSummaryProcessed]

/-! ## Claim C3: date normalization in the dedup lookups -/

/-- C3, counterexample.  The claim says every dedup lookup normalizes
the stored meeting-date cell to `yyyy-MM-dd` before comparing.  On a
ledger whose only row is a recording row with a structured date cell
for 2025-10-05, a lookup that normalizes (modelled from the spec's
words) finds the row, but the source's `isRecordingProcessed` returns
false: the recording-kind lookup compares the raw cell with `===` and
performs no normalization. -/
theorem zoomC3_counterexample :
    isRecordingProcessedSpecNormalized "T" "2025-10-05"
      [⟨"T", Cell.date 2025 10 5, "Video", "loc", "t", "h"⟩] = true
    ∧ isRecordingProcessed "T" "2025-10-05"
      [⟨"T", Cell.date 2025 10 5, "Video", "loc", "t", "h"⟩] = false := by decide

/-- C3, amended.  Only the summary-kind lookup normalizes the stored
meeting-date cell, and only when it is a structured date (formatted as
`yyyy-MM-dd` before comparison); string cells are compared verbatim.
The recording-kind lookup performs no normalization at all: on a ledger
whose date cells are all structured dates it never finds a match. -/
theorem zoomC3_amended :
    (∀ (t q : String) (rows : List Row),
      (∀ r ∈ rows, ∃ y m d, r.date = Cell.date y m d) →
      isRecordingProcessed t q rows = false)
    ∧ (∀ (t q : String) (rows : List Row),
      isSummaryProcessed t q rows =
        rows.any (fun r =>
          r.topic == t && normDateCell r.date == q && r.files == "AI Summary"))
    ∧ (∀ y m d, normDateCell (Cell.date y m d) = formatYMD y m d)
    ∧ (∀ s, normDateCell (Cell.str s) = s) := by
  refine ⟨?_, isSummaryProcessed_eq_any, fun _ _ _ => rfl, fun _ => rfl⟩
  intro t q rows h
  rw [isRecordingProcessed_eq_any]
  rw [List.any_eq_false]
  intro r hr
  obtain ⟨y, m, d, hd⟩ := h r hr
  simp [hd, cellRawEq]

/-- C3, witness for the amended theorem. -/
theorem zoomC3_witness :
    isRecordingProcessed "Team Sync" "2025-10-05"
      [⟨"Team Sync", Cell.date 2025 10 5, "Video", "loc", "t", "h"⟩] = false :=
  zoomC3_amended.1 "Team Sync" "2025-10-05" _
    (by intro r hr; simp at hr; subst hr; exact ⟨2025, 10, 5, rfl⟩)

/-! ## Claim C4: dedup lookup semantics per kind -/

/-- C4, counterexample.  The claim says each kind's lookup returns true
exactly when a matching row of that kind exists.  On a ledger whose
only row is a summary row (Files Transferred cell `"AI Summary"`), the
recording-kind lookup nevertheless returns true: `isRecordingProcessed`
ignores the kind marker entirely. -/
theorem zoomC4_counterexample :
    isRecordingProcessed "T" "2025-10-05"
      [⟨"T", Cell.str "2025-10-05", "AI Summary", "loc", "t", "h"⟩] = true
    ∧ List.all [(⟨"T", Cell.str "2025-10-05", "AI Summary", "loc", "t", "h"⟩ : Row)]
        (fun r => r.files == "AI Summary") = true := by decide

/-- C4, amended.  The recording-kind lookup returns true exactly when
any row of either kind matches the (topic, date) pair (with the raw
`===` date comparison); the summary-kind lookup returns true exactly
when a matching row whose file-types cell equals `"AI Summary"` exists
(with the stored date normalized); hence a (topic, date) present only
as recording rows yields false for the summary-kind lookup. -/
theorem zoomC4_amended :
    (∀ (t q : String) (rows : List Row),
      isRecordingProcessed t q rows = true ↔
        ∃ r ∈ rows, r.topic = t ∧ cellRawEq r.date q = true)
    ∧ (∀ (t q : String) (rows : List Row),
      isSummaryProcessed t q rows = true ↔
        ∃ r ∈ rows, r.topic = t ∧ normDateCell r.date = q ∧ r.files = "AI Summary")
    ∧ (∀ (t q : String) (rows : List Row),
      (∀ r ∈ rows, r.files ≠ "AI Summary") →
      isSummaryProcessed t q rows = false) := by
  refine ⟨?_, ?_, ?_⟩
  · intro t q rows
    rw [isRecordingProcessed_eq_any]
    simp [List.any_eq_true, and_assoc]
  · intro t q rows
    rw [isSummaryProcessed_eq_any]
    simp [List.any_eq_true, and_assoc]
  · intro t q rows h
    rw [isSummaryProcessed_eq_any, List.any_eq_false]
    intro r hr
    simp [h r hr]

/-- C4, witness for the amended theorem: a ledger holding only a
recording row for the queried (topic, date) yields false for the
summary-kind lookup. -/
theorem zoomC4_witness :
    isSummaryProcessed "Team Sync" "2025-10-05"
      [⟨"Team Sync", Cell.str "2025-10-05", "Video", "loc", "t", "h"⟩] = false :=
  zoomC4_amended.2.2 "Team Sync" "2025-10-05" _ (by decide)

/-! ## Claim C5: transcript conversion merges same-speaker runs -/

/-- C5.  The conversion yields the claimed output on the claim's
caption scenario (same-speaker lines merged with single spaces, a
speaker change flushes, entries joined by a blank line); a line whose
trimmed text contains no colon leaves the loop state unchanged
(silently dropped); and so does a line whose trimmed speaker side or
trimmed statement side is empty. -/
theorem zoomC5_transcript :
    convertTranscriptToText
      "00:00:01.000 --> 00:00:02.000\n1\nAlice: Hello there\nAlice: how are you\nBob: I\x27m fine"
      = "Alice: Hello there how are you\n\nBob: I\x27m fine"
    ∧ (∀ (st : VttState) (l : String),
        strContains (trimJS l) ":" = false → vttStep st l = st)
    ∧ (∀ (st : VttState) (l : String),
        lineSpeaker (trimJS l) = "" ∨ lineStatement (trimJS l) = "" →
        vttStep st l = st) := by
  refine ⟨by decide, ?_, ?_⟩
  · intro st l h
    simp only [vttStep]
    split
    · rfl
    · simp [h]
  · intro st l h
    simp only [vttStep]
    split
    · rfl
    · split
      · rcases h with h | h <;> simp [h]
      · rfl

/-- C5, witness: a colon-free line and a line with an empty speaker
side are both dropped without touching the loop state. -/
theorem zoomC5_witness :
    vttStep ⟨some "Alice", ["hi"], []⟩ "a line without separator" =
      ⟨some "Alice", ["hi"], []⟩
    ∧ vttStep ⟨some "Alice", ["hi"], []⟩ " : orphan statement" =
      ⟨some "Alice", ["hi"], []⟩ :=
  ⟨zoomC5_transcript.2.1 _ _ (by decide), zoomC5_transcript.2.2 _ _ (by decide)⟩

/-! ## Claim C6: windowing arithmetic of the fetch -/

/-- The number of windows is `ceil(days/30)`. -/
theorem getRecordingChunks_length (days : Nat) (today : Int) :
    (getRecordingChunks days today).length = (days + 29) / 30 := by
  simp only [getRecordingChunks]
  rw [List.length_map, List.length_range]

/-- C6.  The fetch issues `ceil(days/30)` windows; exactly one for
1-30 days and exactly two for 31-60 days; every window's start is
clamped to not precede `fromDate = today - days`; and the windows walk
backward from `today`, the `i`-th window ending at `today - 30*i`. -/
theorem zoomC6_windows :
    (∀ (days : Nat) (today : Int),
      (getRecordingChunks days today).length = (days + 29) / 30)
    ∧ (∀ (days : Nat) (today : Int), 1 ≤ days → days ≤ 30 →
      (getRecordingChunks days today).length = 1)
    ∧ (∀ (days : Nat) (today : Int), 31 ≤ days → days ≤ 60 →
      (getRecordingChunks days today).length = 2)
    ∧ (∀ (days : Nat) (today : Int), ∀ w ∈ getRecordingChunks days today,
      today - (days : Int) ≤ w.1)
    ∧ (∀ (days : Nat) (today : Int) (i : Nat)
        (h : i < (getRecordingChunks days today).length),
      ((getRecordingChunks days today).get ⟨i, h⟩).2 = today - 30 * (i : Int)) := by
  refine ⟨getRecordingChunks_length, ?_, ?_, ?_, ?_⟩
  · intro days today h1 h2
    rw [getRecordingChunks_length]
    omega
  · intro days today h1 h2
    rw [getRecordingChunks_length]
    omega
  · intro days today w hw
    simp only [getRecordingChunks, List.mem_map, List.mem_range] at hw
    obtain ⟨i, _, rfl⟩ := hw
    dsimp only
    split <;> omega
  · intro days today i h
    rw [List.get_eq_getElem]
    simp only [getRecordingChunks] at h ⊢
    rw [List.getElem_map, List.getElem_range]

/-- C6, witness: a 2-day range yields one window, a 45-day range two,
and every window of the 45-day range starts no earlier than
`fromDate`. -/
theorem zoomC6_witness :
    (getRecordingChunks 2 738000).length = 1
    ∧ (getRecordingChunks 45 738000).length = 2
    ∧ ((getRecordingChunks 45 738000).get ⟨1, by decide⟩).2 = 738000 - 30 * (1 : Int) :=
  ⟨zoomC6_windows.2.1 2 738000 (by decide) (by decide),
   zoomC6_windows.2.2.1 45 738000 (by decide) (by decide),
   zoomC6_windows.2.2.2.2 45 738000 1 (by decide)⟩

/-! ## Claim C7: folder routing -/

/-- The keyword scan returns `none` or the folder id of some configured
pair. -/
theorem lookupFolder_range (tl : String) (mapping : List (String × String)) :
    lookupFolder tl mapping = none ∨
      ∃ kv ∈ mapping, lookupFolder tl mapping = some kv.2 := by
  induction mapping with
  | nil => exact Or.inl rfl
  | cons kv rest ih =>
    cases hc : strContains tl (strLower kv.1) with
    | true => exact Or.inr ⟨kv, List.mem_cons_self _ _, by simp [lookupFolder, hc]⟩
    | false =>
      rcases ih with h | ⟨kv2, hm, he⟩
      · exact Or.inl (by simp [lookupFolder, hc, h])
      · exact Or.inr ⟨kv2, List.mem_cons_of_mem _ hm, by simp [lookupFolder, hc, he]⟩

/-- When no earlier configured keyword matches and `keyword` does, the
scan returns its folder id. -/
theorem lookupFolder_first (tl : String) (pre : List (String × String))
    (keyword folderId : String) (post : List (String × String))
    (hpre : ∀ kv ∈ pre, strContains tl (strLower kv.1) = false)
    (hk : strContains tl (strLower keyword) = true) :
    lookupFolder tl (pre ++ (keyword, folderId) :: post) = some folderId := by
  induction pre with
  | nil => simp [lookupFolder, hk]
  | cons kv rest ih =>
    have h1 := hpre kv (List.mem_cons_self _ _)
    simp only [List.cons_append, lookupFolder, h1]
    simp only [Bool.false_eq_true, if_false]
    exact ih fun kv2 hm => hpre kv2 (List.mem_cons_of_mem _ hm)

/-- When no configured keyword matches, the scan returns `none`. -/
theorem lookupFolder_none (tl : String) (mapping : List (String × String))
    (h : ∀ kv ∈ mapping, strContains tl (strLower kv.1) = false) :
    lookupFolder tl mapping = none := by
  induction mapping with
  | nil => rfl
  | cons kv rest ih =>
    have h1 := h kv (List.mem_cons_self _ _)
    simp only [lookupFolder, h1, Bool.false_eq_true, if_false]
    exact ih fun kv2 hm => h kv2 (List.mem_cons_of_mem _ hm)

/-- C7.  The resolver is deterministic (equal topics yield equal
folder ids), total with range inside the configured ids plus the
default, first-match-wins over the configured order, and falls back to
the default when no keyword matches. -/
theorem zoomC7_router :
    (∀ (mapping : List (String × String)) (dflt t1 t2 : String), t1 = t2 →
      getDestinationFolderId mapping dflt t1 = getDestinationFolderId mapping dflt t2)
    ∧ (∀ (mapping : List (String × String)) (dflt t : String),
      getDestinationFolderId mapping dflt t = dflt ∨
        ∃ kv ∈ mapping, getDestinationFolderId mapping dflt t = kv.2)
    ∧ (∀ (pre : List (String × String)) (keyword folderId : String)
        (post : List (String × String)) (dflt t : String),
      (∀ kv ∈ pre, strContains (strLower t) (strLower kv.1) = false) →
      strContains (strLower t) (strLower keyword) = true →
      getDestinationFolderId (pre ++ (keyword, folderId) :: post) dflt t = folderId)
    ∧ (∀ (mapping : List (String × String)) (dflt t : String),
      (∀ kv ∈ mapping, strContains (strLower t) (strLower kv.1) = false) →
      getDestinationFolderId mapping dflt t = dflt) := by
  refine ⟨fun _ _ _ _ h => by rw [h], ?_, ?_, ?_⟩
  · intro mapping dflt t
    rcases lookupFolder_range (strLower t) mapping with h | ⟨kv, hm, he⟩
    · exact Or.inl (by simp [getDestinationFolderId, h])
    · exact Or.inr ⟨kv, hm, by simp [getDestinationFolderId, he]⟩
  · intro pre keyword folderId post dflt t hpre hk
    have h := lookupFolder_first (strLower t) pre keyword folderId post hpre hk
    simp [getDestinationFolderId, h]
  · intro mapping dflt t h
    have h2 := lookupFolder_none (strLower t) mapping h
    simp [getDestinationFolderId, h2]

/-- C7, witness: the spec's routing scenario - topic
"Weekly Operations Sync" with mapping {"operations": "F1"} and default
"F0" resolves to "F1". -/
theorem zoomC7_witness :
    getDestinationFolderId [("operations", "F1")] "F0" "Weekly Operations Sync" = "F1" :=
  zoomC7_router.2.2.1 [] "operations" "F1" [] "F0" "Weekly Operations Sync"
    (by intro kv h; cases h) (by decide)

/-! ## Claim C8: best-effort partial-success fetch -/

/-- C8, counterexample.  The claim says a request failure on some page
terminates pagination for that window only, propagates no exception,
and preserves already-collected items.  For the recordings fetch this
fails: with page 1 succeeding and page 2 throwing, the page loop of
`fetchRecordingsForDateRange` propagates the exception (there is no
try/catch inside it), and at the `getZoomRecordingsForUser` level the
catch discards the items of the already-completed first window and
returns the empty list. -/
theorem zoomC8_counterexample :
    fetchRecLoop "e" (fun i => if i == 1 then RecPage.ok [exRecording] 5 else RecPage.netFail)
      10 1 [] = Except.error ()
    ∧ fetchRecLoop "e"
        (fun i => if i == 1 then RecPage.ok [exRecording] 1 else RecPage.netFail)
        10 1 [] = Except.ok [exRecording]
    ∧ getZoomRecordingsForUser 10 60 "user-1" "e"
        (fun c i => if c == 0 && i == 1 then RecPage.ok [exRecording] 1 else RecPage.netFail)
      = [] := by
  refine ⟨rfl, ?_, ?_⟩ <;> rfl

/-- C8, amended.  For the recordings fetch, a non-success HTTP response
on a page terminates that window's pagination and returns the items
already collected, with no exception; for the summaries fetch the
policy holds in full - both a non-success response and a thrown request
failure terminate the window returning the collected items, and every
already-fetched window's items are preserved by the chunk loop.  (A
thrown request failure in the recordings fetch instead propagates and
the per-user catch discards all collected items - see the
counterexample.) -/
theorem zoomC8_amended :
    (∀ (userEmail : String) (pages : Nat → RecPage) (fuel page : Nat)
        (acc : List Recording), pages page = RecPage.httpErr →
      fetchRecLoop userEmail pages (fuel + 1) page acc = Except.ok acc)
    ∧ (∀ (pages : Nat → SumPage) (fuel i : Nat) (acc : List SummaryItem),
      pages i = SumPage.httpErr ∨ pages i = SumPage.netFail →
      fetchSumLoop pages (fuel + 1) i acc = acc)
    ∧ (∀ (oracle : Nat → Nat → SumPage) (fuel : Nat) (chunks : List Nat)
        (acc : List SummaryItem),
      ∃ rest, sumChunksGo oracle fuel chunks acc = acc ++ rest) := by
  refine ⟨?_, ?_, ?_⟩
  · intro ue pages fuel page acc h
    simp [fetchRecLoop, h]
  · intro pages fuel i acc h
    rcases h with h | h <;> simp [fetchSumLoop, h]
  · intro oracle fuel chunks acc
    induction chunks generalizing acc with
    | nil => exact ⟨[], by simp [sumChunksGo]⟩
    | cons c cs ih =>
      obtain ⟨rest, hr⟩ := ih (acc ++ fetchSumLoop (oracle c) fuel 0 [])
      exact ⟨fetchSumLoop (oracle c) fuel 0 [] ++ rest, by
        simp only [sumChunksGo, hr, List.append_assoc]⟩

/-- C8, witness for the amended theorem. -/
theorem zoomC8_witness :
    fetchRecLoop "e" (fun _ => RecPage.httpErr) 1 1 [exRecording] = Except.ok [exRecording]
    ∧ fetchSumLoop (fun _ => SumPage.netFail) 1 0 [] = [] :=
  ⟨zoomC8_amended.1 "e" _ 0 1 [exRecording] rfl,
   zoomC8_amended.2.1 _ 0 0 [] (Or.inr rfl)⟩

/-! ## Claim C9: topic-marker stripping edge cases -/

/-- A string starts with itself followed by anything. -/
theorem strStartsWith_append (s t : String) : strStartsWith (s ++ t) s = true := by
  simp only [strStartsWith, String.data_append, List.isPrefixOf_iff_prefix]
  exact List.prefix_append _ _

/-- Dropping the first string of an appended pair from its data. -/
theorem data_drop_append (s t : String) :
    (s ++ t).data.drop s.data.length = t.data := by
  rw [String.data_append]
  exact List.drop_left _ _

/-- On a topic that starts with the non-empty marker, the removal is
decided by the separator regex on the characters after the marker. -/
theorem removeConfiguredTopicStart_eq (marker : String) (suffix : List Char)
    (hm : marker ≠ "") :
    removeConfiguredTopicStart marker (String.mk (marker.data ++ suffix)) =
      match stripSeparator suffix with
      | some tail => String.mk tail
      | none => String.mk (marker.data ++ suffix) := by
  have h0 : (marker == "") = false := beq_eq_false_iff_ne.mpr hm
  have h1 : strStartsWith (String.mk (marker.data ++ suffix)) marker = true := by
    simp only [strStartsWith, List.isPrefixOf_iff_prefix]
    exact List.prefix_append _ _
  have h2 : (String.mk (marker.data ++ suffix)).data.drop marker.data.length = suffix :=
    List.drop_left _ _
  simp only [removeConfiguredTopicStart, h0, Bool.false_eq_true, if_false, h1, if_true, h2]

/-- The separator regex does not match when the character after the
marker is not whitespace. -/
theorem stripSeparator_not_ws (c : Char) (rest : List Char)
    (h : jsWhitespaceChar c = false) : stripSeparator (c :: rest) = none := by
  simp [stripSeparator, h]

/-- A single whitespace character after the marker is consumed when the
pipe alternative does not apply. -/
theorem stripSeparator_ws (c : Char) (rest : List Char)
    (hc : jsWhitespaceChar c = true) (hr : rest.headD ' ' ≠ '|') :
    stripSeparator (c :: rest) = some rest := by
  rcases rest with _ | ⟨c2, _ | ⟨c3, tail⟩⟩
  · simp [stripSeparator, hc]
  · simp [stripSeparator, hc]
  · have h2 : (c2 == '|') = false := by
      simp only [List.headD_cons] at hr
      exact beq_eq_false_iff_ne.mpr hr
    simp [stripSeparator, hc, h2]

/-- C9, counterexample.  The claim says the configured marker is
removed only when followed by a single space or by `" | "`, and that a
topic where the marker is followed by any other character passes
through unchanged.  A tab is such another character, yet the source's
regex uses the whitespace class `\s`, so `"Org\tMeeting"` with marker
`"Org"` is stripped to `"Meeting"` instead of passing through. -/
theorem zoomC9_counterexample :
    removeConfiguredTopicStart "Org" "Org\tMeeting" = "Meeting"
    ∧ removeConfiguredTopicStart "Org" "Org\tMeeting" ≠ "Org\tMeeting" := by decide

/-- C9, amended.  For a non-empty configured marker: the marker plus
`" | "` is removed; a topic exactly equal to the marker is unchanged;
the marker followed by a non-whitespace character (e.g. a colon or
letter) is unchanged; and the marker followed by any single whitespace
character (space, tab, ...) is removed together with that character
(when no pipe alternative applies). -/
theorem zoomC9_amended :
    (∀ (marker rest : String), marker ≠ "" →
      removeConfiguredTopicStart marker (marker ++ " | " ++ rest) = rest)
    ∧ (∀ marker : String, removeConfiguredTopicStart marker marker = marker)
    ∧ (∀ (marker : String) (c : Char) (rest : List Char), marker ≠ "" →
      jsWhitespaceChar c = false →
      removeConfiguredTopicStart marker (marker ++ String.mk (c :: rest)) =
        marker ++ String.mk (c :: rest))
    ∧ (∀ (marker : String) (c : Char) (rest : List Char), marker ≠ "" →
      jsWhitespaceChar c = true → rest.headD ' ' ≠ '|' →
      removeConfiguredTopicStart marker (marker ++ String.mk (c :: rest)) =
        String.mk rest) := by
  refine ⟨?_, ?_, ?_, ?_⟩
  · intro marker rest hm
    have e : marker ++ " | " ++ rest =
        String.mk (marker.data ++ (' ' :: '|' :: ' ' :: rest.data)) :=
      congrArg String.mk (List.append_assoc marker.data " | ".data rest.data)
    rw [e, removeConfiguredTopicStart_eq marker _ hm]
    simp [stripSeparator, jsWhitespaceChar]
  · intro marker
    by_cases hm : marker = ""
    · subst hm; rfl
    · have e : String.mk (marker.data ++ []) = marker :=
        congrArg String.mk (List.append_nil _)
      have key := removeConfiguredTopicStart_eq marker [] hm
      rw [e] at key
      simpa [stripSeparator] using key
  · intro marker c rest hm hc
    have e : marker ++ String.mk (c :: rest) = String.mk (marker.data ++ (c :: rest)) := rfl
    rw [e, removeConfiguredTopicStart_eq marker _ hm, stripSeparator_not_ws c rest hc]
  · intro marker c rest hm hc hr
    have e : marker ++ String.mk (c :: rest) = String.mk (marker.data ++ (c :: rest)) := rfl
    rw [e, removeConfiguredTopicStart_eq marker _ hm, stripSeparator_ws c rest hc hr]

/-- C9, witness for the amended theorem. -/
theorem zoomC9_witness :
    removeConfiguredTopicStart "Org" ("Org" ++ " | " ++ "Weekly") = "Weekly"
    ∧ removeConfiguredTopicStart "Org" "Org" = "Org"
    ∧ removeConfiguredTopicStart "Org" ("Org" ++ String.mk (':' :: " Weekly".data)) =
        "Org" ++ String.mk (':' :: " Weekly".data)
    ∧ removeConfiguredTopicStart "Org" ("Org" ++ String.mk ('\t' :: "Weekly".data)) =
        String.mk "Weekly".data :=
  ⟨zoomC9_amended.1 "Org" "Weekly" (by decide),
   zoomC9_amended.2.1 "Org",
   zoomC9_amended.2.2.1 "Org" ':' " Weekly".data (by decide) (by decide),
   zoomC9_amended.2.2.2 "Org" '\t' "Weekly".data (by decide) (by decide) (by decide)⟩

/-! ## Claim C10: the member scope key does not influence summary
fetching -/

/-- C10.  `getZoomSummariesForUser` never uses its `userId` argument in
any request: for a fixed token/oracle and date range, any two user ids
yield the same summary list; consequently the summary phase of the run
presents each summary item once per enumerated member (its occurrence
count in the presented sequence is the member count times its count in
one fetch). -/
theorem zoomC10_summary_scope :
    (∀ (fuel days : Nat) (u1 u2 : String) (oracle : Nat → Nat → SumPage),
      getZoomSummariesForUser fuel days u1 oracle =
        getZoomSummariesForUser fuel days u2 oracle)
    ∧ (∀ (users : List String) (fuel days : Nat) (oracle : Nat → Nat → SumPage)
        (s : SummaryItem),
      (summariesPhase users fuel days oracle).count s =
        users.length * (getZoomSummariesForUser fuel days "" oracle).count s) := by
  constructor
  · intro fuel days u1 u2 oracle
    rfl
  · intro users fuel days oracle s
    induction users with
    | nil => simp [summariesPhase]
    | cons u us ih =>
      have hu : getZoomSummariesForUser fuel days u oracle =
          getZoomSummariesForUser fuel days "" oracle := rfl
      simp only [summariesPhase, List.map_cons, List.flatten_cons, List.count_append,
        List.length_cons] at *
      rw [hu, ih]
      ring

/-! ## Claim C2: source deletion is gated on transfer success -/

/-- C2.  The Zoom deletion call is invoked only when
`DELETE_AFTER_TRANSFER` is enabled and at least one file was
transferred; and when the flag is enabled but zero files were
transferred (item not skipped, folder creation succeeded), deletion is
not invoked while the item is still logged with an empty file-types
summary. -/
theorem zoomC2_delete_gated :
    (∀ (cfg : Config) (eff : RecEffects) (rec : Recording) (sheet : List Row)
        (now : String),
      (processRecording cfg eff rec sheet now).deleteInvoked = true →
        cfg.DELETE_AFTER_TRANSFER = true ∧
        (processRecording cfg eff rec sheet now).filesTransferred ≠ [])
    ∧ (∀ (cfg : Config) (eff : RecEffects) (rec : Recording) (sheet : List Row)
        (now : String),
      cfg.DELETE_AFTER_TRANSFER = true →
      (processRecording cfg eff rec sheet now).skipped = false →
      (processRecording cfg eff rec sheet now).errored = false →
      (processRecording cfg eff rec sheet now).filesTransferred = [] →
        (processRecording cfg eff rec sheet now).deleteInvoked = false ∧
        ∃ row, (processRecording cfg eff rec sheet now).logged = some row ∧
          row.files = "") := by
  constructor
  · intro cfg eff rec sheet now
    simp only [processRecording]
    split
    · intro h; simp at h
    · split
      · intro h; simp at h
      · intro h
        simp only at h ⊢
        rw [Bool.and_eq_true] at h
        refine ⟨h.1, ?_⟩
        intro hnil
        rw [hnil] at h
        simp at h
  · intro cfg eff rec sheet now hflag
    simp only [processRecording]
    split
    · intro hs; simp at hs
    · split
      · intro _ he; simp at he
      · intro _ _ hf
        simp only at hf ⊢
        rw [hf]
        refine ⟨by simp, logTransferRow _ _ (joinSep ", " []) _ now _, rfl, ?_⟩
        show fileTypesList (joinSep ", " []) = ""
        decide

/-- C2, witness: delete-after-transfer enabled, every download fails:
deletion is not invoked and the item is logged with an empty file-types
summary. -/
theorem zoomC2_witness :
    (processRecording exConfig exEffectsFail exRecording [] "now").deleteInvoked = false
    ∧ ∃ row, (processRecording exConfig exEffectsFail exRecording [] "now").logged =
        some row ∧ row.files = "" :=
  zoomC2_delete_gated.2 exConfig exEffectsFail exRecording [] "now" rfl (by decide)
    (by decide) (by decide)

/-! ## Claim C1: round-trip idempotency against the ledger -/

/-- C1.  Evaluation of the code at the failing input: a first run of
`processRecording` on `exRecording` over an empty ledger appends
`exLoggedRow`, whose date cell holds `"10-05-2025"` (the `MM-dd-yyyy`
reformatting applied by `logTransferToSheet`).  A second run over the
ledger holding exactly that row is NOT skipped -
`isRecordingProcessed` compares the stored cell against the queried
`"2025-10-05"` with strict equality and finds no match - so the second
run uploads the file again and appends a second identical row,
contradicting the claimed invariant (zero uploads, zero new rows). -/
theorem zoomC1_roundTrip_bug :
    (processRecording exConfig exEffects exRecording [] "now").logged = some exLoggedRow
    ∧ (processRecording exConfig exEffects exRecording [exLoggedRow] "now").skipped = false
    ∧ (processRecording exConfig exEffects exRecording [exLoggedRow] "now").filesTransferred
        = ["2025-10-05_Team Sync_video.mp4 (drive-1)"]
    ∧ (processRecording exConfig exEffects exRecording [exLoggedRow] "now").logged
        = some exLoggedRow
    ∧ isRecordingProcessed "Team Sync" "2025-10-05" [exLoggedRow] = false := by decide

end ZoomDrive
